import Mathlib

/-!
Shallow embedding of the WhatsApp chat analyzer
(`WA_prog_senti_distribution.py`) and proofs about its behaviour.

The embedding follows the Python source function by function:
`parse_datetime`, `is_system_message`, `parse_whatsapp_chat` (with its
module-level `chat_pattern` regex), `daily_chat_frequency`,
`average_messages_per_day`, `response_time_analysis` and
`sentiment_analysis`.  External collaborators (the `emoji.EMOJI_DATA`
table and the TextBlob polarity scorer) are passed in as parameters.
Strings are handled as `List Char`; Python regex matching is modelled by
an explicit backtracking matcher whose alternatives are listed in the
priority order of the corresponding regex constructs.
-/

namespace WaChat

/-- Characters that Python's `str.strip` and the regex class `\s` treat as
whitespace (ASCII whitespace plus the Unicode space code points relevant
here, notably U+00A0 and U+202F). -/
def pyIsSpace (c : Char) : Bool :=
  c.toNat ∈ [9, 10, 11, 12, 13, 28, 29, 30, 31, 32, 133, 160, 0x1680,
    0x2000, 0x2001, 0x2002, 0x2003, 0x2004, 0x2005, 0x2006, 0x2007,
    0x2008, 0x2009, 0x200a, 0x2028, 0x2029, 0x202f, 0x205f, 0x3000]

/-- Python `str.strip()`: drop leading and trailing whitespace. -/
def pyStrip (s : List Char) : List Char :=
  ((s.dropWhile pyIsSpace).reverse.dropWhile pyIsSpace).reverse

/-- `stripStr` is `pyStrip` lifted to `String`. -/
def stripStr (s : String) : String :=
  String.mk (pyStrip s.data)

/-- Helper for `collapseWS`: the flag records whether the previous kept
character came from a whitespace run. -/
def collapseAux : Bool → List Char → List Char
  | _, [] => []
  | prevWS, c :: cs =>
    if pyIsSpace c then
      if prevWS then collapseAux true cs
      else ' ' :: collapseAux true cs
    else c :: collapseAux false cs

/-- Python `re.sub(r"\s+", " ", s)`: replace each maximal whitespace run
by a single space. -/
def collapseWS (s : List Char) : List Char :=
  collapseAux false s

/-- ASCII lowercasing, as used for case-insensitive matching of the
all-ASCII system-message patterns (`re.IGNORECASE`). -/
def lowerChar (c : Char) : Char :=
  if 'A' ≤ c ∧ c ≤ 'Z' then Char.ofNat (c.toNat + 32) else c

/-- Does `p` occur at the head of `s`? -/
def startsWithChars : List Char → List Char → Bool
  | [], _ => true
  | _ :: _, [] => false
  | p :: ps, c :: cs => p = c && startsWithChars ps cs

/-- Does `needle` occur as a contiguous substring of `s` (Python's
`needle in s`, also `re.search(".*needle.*", s)`)? -/
def hasSub (needle : List Char) : List Char → Bool
  | [] => needle.isEmpty
  | c :: cs => startsWithChars needle (c :: cs) || hasSub needle cs

/-- The suffix of `s` following the first occurrence of `needle`, when
one exists. -/
def dropAfterFirst (needle : List Char) : List Char → Option (List Char)
  | [] => if needle.isEmpty then some [] else none
  | c :: cs =>
    if startsWithChars needle (c :: cs) then some ((c :: cs).drop needle.length)
    else dropAfterFirst needle cs

/-- `hasSeq ns s` holds when the needles of `ns` occur in `s` in order,
without overlap: this is `re.search` for a pattern of literals joined by
`.*` (searching each needle after the end of the previous one's first
occurrence is equivalent to the regex's existential semantics). -/
def hasSeq : List (List Char) → List Char → Bool
  | [], _ => true
  | n :: ns, s =>
    match dropAfterFirst n s with
    | none => false
    | some rest => hasSeq ns rest

/-- The apostrophe character (U+0027), occurring in one system pattern. -/
def apos : Char := Char.ofNat 39

/-- The eleven `system_patterns` of `is_system_message`, each reduced to
its literal pieces: a pattern `.*A.*B.*` becomes `[A, B]`.  All pattern
text is ASCII and already lowercase in the source. -/
def systemPatterns : List (List String) :=
  [["messages to this group are now secured with end-to-end encryption"],
   ["created group"],
   [String.mk ("changed this group".data ++ [apos] ++ "s".data)],
   ["left the group"],
   ["added", "to the group"],
   ["removed", "from the group"],
   ["changed the subject to"],
   ["changed the group description"],
   ["deleted this message"],
   ["started a call"],
   ["ended the call"]]

/-- `is_system_message`: does any of the fixed phrase patterns match the
line, case-insensitively, anywhere in it? -/
def is_system_message (line : String) : Bool :=
  systemPatterns.any fun pats =>
    hasSeq (pats.map fun p => p.data.map lowerChar) (line.data.map lowerChar)

/-!  The `chat_pattern` regex

    ^(\d{1,2}[-\/\.\s]\d{1,2}[-\/\.\s]\d{2,4}),?\s?
      (\d{1,2}:\d{2}(\s?[APMapm]{2})?)?\s?[-–]\s(.*?):\s(.*)

is modelled by an explicit backtracking matcher.  Every construct is
turned into the list of its possible matches at the current position,
listed in the priority order the regex engine uses (greedy constructs
longest first, lazy constructs shortest first, optional groups
present-first); alternatives are combined with `List.flatMap`, and the
overall match is the first element of the combined list, exactly the
backtracking order of `re.match`. -/

/-- `\d{n}` exactly: take `n` digits. -/
def tryTakeDigits (n : Nat) (s : List Char) : Option (List Char × List Char) :=
  let p := s.take n
  if p.length = n ∧ p.all Char.isDigit then some (p, s.drop n) else none

/-- `\d{1,2}` (greedy): two digits preferred, else one. -/
def take2Digits (s : List Char) : List (List Char × List Char) :=
  [2, 1].filterMap (tryTakeDigits · s)

/-- `\d{2,4}` (greedy): four digits preferred, then three, then two. -/
def digits24 (s : List Char) : List (List Char × List Char) :=
  [4, 3, 2].filterMap (tryTakeDigits · s)

/-- The character class `[-\/\.\s]` separating the date fields. -/
def sepOpts (s : List Char) : List (Char × List Char) :=
  match s with
  | [] => []
  | c :: rest =>
    if c = '-' ∨ c = '/' ∨ c = '.' ∨ pyIsSpace c then [(c, rest)] else []

/-- `c?` (greedy) for a literal character: present first, then absent. -/
def optChar (c : Char) (s : List Char) : List (List Char × List Char) :=
  match s with
  | [] => [([], [])]
  | x :: rest => if x = c then [([x], rest), ([], x :: rest)] else [([], x :: rest)]

/-- `\s?` (greedy): a whitespace character if present, then absent. -/
def optWS (s : List Char) : List (List Char × List Char) :=
  match s with
  | [] => [([], [])]
  | x :: rest => if pyIsSpace x then [([x], rest), ([], x :: rest)] else [([], x :: rest)]

/-- Membership in the class `[APMapm]`. -/
def isAPM (c : Char) : Bool :=
  c = 'A' ∨ c = 'P' ∨ c = 'M' ∨ c = 'a' ∨ c = 'p' ∨ c = 'm'

/-- The optional AM/PM group `(\s?[APMapm]{2})?`: each present match
(returning the captured characters) before the absent alternative. -/
def ampmOpts (s : List Char) : List (Option (List Char) × List Char) :=
  ((optWS s).flatMap fun (w, r) =>
    match r with
    | a :: b :: rest => if isAPM a ∧ isAPM b then [(some (w ++ [a, b]), rest)] else []
    | _ => []) ++ [(none, s)]

/-- The optional time group `(\d{1,2}:\d{2}(\s?[APMapm]{2})?)?`: present
matches first (capturing the whole time text and the inner AM/PM text),
then the absent alternative. -/
def timeOpts (s : List Char) : List (Option (List Char × Option (List Char)) × List Char) :=
  ((take2Digits s).flatMap fun (h, r1) =>
    match r1 with
    | ':' :: r2 =>
      match tryTakeDigits 2 r2 with
      | none => []
      | some (mn, r3) =>
        (ampmOpts r3).map fun (ap, r4) =>
          (some (h ++ [':'] ++ mn ++ ap.getD [], ap), r4)
    | _ => []) ++ [(none, s)]

/-- The separator class `[-–]`: hyphen-minus or en dash (U+2013). -/
def dashOpts (s : List Char) : List (Char × List Char) :=
  match s with
  | [] => []
  | c :: rest => if c = '-' ∨ c = Char.ofNat 0x2013 then [(c, rest)] else []

/-- One mandatory `\s` character. -/
def wsOne (s : List Char) : List (Char × List Char) :=
  match s with
  | [] => []
  | c :: rest => if pyIsSpace c then [(c, rest)] else []

/-- The lazy `(.*?)`: all splits of `s` in order of increasing prefix
length, the prefix never crossing a newline (`.` does not match `\n`). -/
def lazySplits : List Char → List (List Char × List Char)
  | [] => [([], [])]
  | c :: cs =>
    ([], c :: cs) ::
      (if c = '\n' then [] else (lazySplits cs).map fun (p, r) => (c :: p, r))

/-- The captures of a successful `chat_pattern` match: groups 1–5 of the
regex (`date`, optional `time`, the inner AM/PM group, `user`,
`message`). -/
structure ChatGroups where
  date : String
  time : Option String
  ampm : Option String
  user : String
  message : String
deriving DecidableEq, Repr

/-- All matches of `chat_pattern` against `s` (anchored at the start, as
`re.match` is), listed in backtracking priority order. -/
def chatMatchAll (s : List Char) : List ChatGroups :=
  (take2Digits s).flatMap fun (d1, r1) =>
  (sepOpts r1).flatMap fun (s1, r2) =>
  (take2Digits r2).flatMap fun (d2, r3) =>
  (sepOpts r3).flatMap fun (s2, r4) =>
  (digits24 r4).flatMap fun (d3, r5) =>
  (optChar ',' r5).flatMap fun (_, r6) =>
  (optWS r6).flatMap fun (_, r7) =>
  (timeOpts r7).flatMap fun (tOpt, r8) =>
  (optWS r8).flatMap fun (_, r9) =>
  (dashOpts r9).flatMap fun (_, r10) =>
  (wsOne r10).flatMap fun (_, r11) =>
  (lazySplits r11).flatMap fun (u, r12) =>
  (match r12 with
   | ':' :: c :: rest =>
     if pyIsSpace c then
       [{ date := String.mk (d1 ++ [s1] ++ d2 ++ [s2] ++ d3),
          time := (tOpt.map fun t => String.mk t.1),
          ampm := (tOpt.bind fun t => t.2.map String.mk),
          user := String.mk u,
          message := String.mk (rest.takeWhile fun ch => ch ≠ '\n') }]
     else []
   | _ => [])

/-- `chat_pattern.match`: the first match in backtracking order, if any. -/
def chatMatch (s : List Char) : Option ChatGroups :=
  (chatMatchAll s).head?

/-!  `parse_datetime` and its `datetime.strptime` calls.

Each format string of the `formats` list is a sequence of directives;
`strptime` compiles the whole format into one regex and requires it to
consume the entire input ("unconverted data remains" otherwise).  The
numeric directives are prioritized alternations — for example `%d` is
`3[01]|[12]\d|0[1-9]|[1-9]` — so a two-digit reading is preferred and a
one-digit reading is the backtracking fallback; `matchNum` mirrors this.
A successful regex match is then validated by the `datetime` constructor
(day within the month, etc.); a failed validation raises `ValueError`,
which `parse_datetime` treats the same as a non-match. -/

/-- A `strptime` format directive, or a literal character, or the
whitespace run that a blank in the format matches. -/
inductive FmtTok where
  | fd | fm | fy2 | fy4 | fH | fI | fMin | fAmpm | fws
  | lit (c : Char)
deriving DecidableEq, Repr

/-- The fields accumulated while matching a format. -/
structure RawFields where
  year : Option Nat
  month : Option Nat
  day : Option Nat
  hour24 : Option Nat
  hour12 : Option Nat
  minute : Option Nat
  isPM : Option Bool
deriving DecidableEq, Repr

def emptyFields : RawFields := ⟨none, none, none, none, none, none, none⟩

def digitVal (c : Char) : Nat := c.toNat - 48

def twoDigitVal (a b : Char) : Nat := digitVal a * 10 + digitVal b

/-- A numeric directive whose two-digit alternatives cover the values
`lo`–`hi` and whose one-digit fallback is `[1-9]` (or `\d` when
`zeroOne` is true).  The two-digit reading is tried first; if the rest of
the format fails under it, the one-digit reading is tried — exactly the
alternation order of `strptime`'s compiled regex. -/
def matchNum (lo hi : Nat) (zeroOne : Bool) (s : List Char)
    (k : Nat → List Char → Option RawFields) : Option RawFields :=
  let two : Option RawFields :=
    match s with
    | a :: b :: r =>
      if a.isDigit ∧ b.isDigit ∧ lo ≤ twoDigitVal a b ∧ twoDigitVal a b ≤ hi then
        k (twoDigitVal a b) r
      else none
    | _ => none
  match two with
  | some x => some x
  | none =>
    match s with
    | a :: r => if a.isDigit ∧ (zeroOne ∨ a ≠ '0') then k (digitVal a) r else none
    | [] => none

/-- Match a token list against the input, requiring the whole input to be
consumed (`strptime` raises "unconverted data remains" otherwise).  The
`%y` directive applies Python's century rule (`00`–`68` → 2000s,
`69`–`99` → 1900s).  The whitespace directive consumes a maximal
nonempty whitespace run; in the formats used here it is always followed
by a digit or an AM/PM letter, so maximal consumption is equivalent to
the regex's greedy `\s+`. -/
def matchToks : List FmtTok → List Char → RawFields → Option RawFields
  | [], s, f => if s.isEmpty then some f else none
  | .fd :: ts, s, f => matchNum 1 31 false s fun v r => matchToks ts r { f with day := some v }
  | .fm :: ts, s, f => matchNum 1 12 false s fun v r => matchToks ts r { f with month := some v }
  | .fH :: ts, s, f => matchNum 0 23 true s fun v r => matchToks ts r { f with hour24 := some v }
  | .fI :: ts, s, f => matchNum 1 12 false s fun v r => matchToks ts r { f with hour12 := some v }
  | .fMin :: ts, s, f => matchNum 0 59 true s fun v r => matchToks ts r { f with minute := some v }
  | .fy2 :: ts, s, f =>
    match s with
    | a :: b :: r =>
      if a.isDigit ∧ b.isDigit then
        let v := twoDigitVal a b
        matchToks ts r { f with year := some (if v ≤ 68 then 2000 + v else 1900 + v) }
      else none
    | _ => none
  | .fy4 :: ts, s, f =>
    match s with
    | a :: b :: c :: d :: r =>
      if a.isDigit ∧ b.isDigit ∧ c.isDigit ∧ d.isDigit then
        matchToks ts r
          { f with year := some (twoDigitVal a b * 100 + twoDigitVal c d) }
      else none
    | _ => none
  | .fAmpm :: ts, s, f =>
    match s with
    | a :: b :: r =>
      if (lowerChar a = 'a' ∨ lowerChar a = 'p') ∧ lowerChar b = 'm' then
        matchToks ts r { f with isPM := some (lowerChar a = 'p') }
      else none
    | _ => none
  | .fws :: ts, s, f =>
    match s with
    | c :: _ => if pyIsSpace c then matchToks ts (s.dropWhile pyIsSpace) f else none
    | [] => none
  | .lit c :: ts, s, f =>
    match s with
    | x :: r => if x = c then matchToks ts r f else none
    | [] => none

/-- Is `y` a Gregorian leap year? -/
def isLeap (y : Nat) : Bool := y % 4 = 0 ∧ (y % 100 ≠ 0 ∨ y % 400 = 0)

/-- The number of days of month `m` (1–12) of year `y`. -/
def daysInMonth (y m : Nat) : Nat :=
  ([31, if isLeap y then 29 else 28, 31, 30, 31, 30, 31, 31, 30, 31, 30, 31].get? (m - 1)).getD 0

/-- The timestamp value produced by a successful parse: the fields of a
Python `datetime` (seconds are always zero here). -/
structure DateTime where
  year : Nat
  month : Nat
  day : Nat
  hour : Nat
  minute : Nat
deriving DecidableEq, Repr

/-- The `datetime` construction performed by `strptime` after the regex
match: convert a 12-hour reading with its AM/PM marker to a 24-hour
hour, and validate the ranges the constructor checks (`MINYEAR ≤ year`,
day within the month); a failed validation is a `ValueError`, i.e.
`none`. -/
def buildDateTime (f : RawFields) : Option DateTime :=
  match f.year, f.month, f.day, f.minute with
  | some y, some m, some d, some mi =>
    let h : Nat :=
      match f.hour12, f.isPM with
      | some i, some pm => (if i = 12 then 0 else i) + (if pm then 12 else 0)
      | some i, none => i
      | none, _ => f.hour24.getD 0
    if 1 ≤ y ∧ y ≤ 9999 ∧ 1 ≤ m ∧ m ≤ 12 ∧ 1 ≤ d ∧ d ≤ daysInMonth y m then
      some ⟨y, m, d, h, mi⟩
    else none
  | _, _, _, _ => none

/-- One `datetime.strptime(s, fmt)` attempt. -/
def strptime (fmt : List FmtTok) (s : List Char) : Option DateTime :=
  (matchToks fmt s emptyFields).bind buildDateTime

/-- The date part of a format: two fields joined by the separator. -/
def dSep (sep : Char) (a b c : FmtTok) : List FmtTok :=
  [a, .lit sep, b, .lit sep, c]

/-- The 12-hour time part ` %I:%M %p`. -/
def t12 : List FmtTok := [.fws, .fI, .lit ':', .fMin, .fws, .fAmpm]

/-- The 24-hour time part ` %H:%M`. -/
def t24 : List FmtTok := [.fws, .fH, .lit ':', .fMin]

/-- The `formats` list of `parse_datetime`, in source order. -/
def formats : List (List FmtTok) :=
  [dSep '/' .fd .fm .fy4 ++ t12, dSep '/' .fm .fd .fy4 ++ t12,
   dSep '/' .fd .fm .fy2 ++ t12, dSep '/' .fm .fd .fy2 ++ t12,
   dSep '/' .fy4 .fm .fd ++ t12, dSep '/' .fy2 .fm .fd ++ t12,
   dSep '/' .fd .fm .fy4 ++ t24, dSep '/' .fm .fd .fy4 ++ t24,
   dSep '/' .fd .fm .fy2 ++ t24, dSep '/' .fm .fd .fy2 ++ t24,
   dSep '/' .fy4 .fm .fd ++ t24, dSep '/' .fy2 .fm .fd ++ t24,
   dSep '-' .fd .fm .fy4 ++ t12, dSep '-' .fm .fd .fy4 ++ t12,
   dSep '-' .fd .fm .fy2 ++ t12, dSep '-' .fm .fd .fy2 ++ t12,
   dSep '-' .fd .fm .fy4 ++ t24, dSep '-' .fm .fd .fy4 ++ t24,
   dSep '-' .fd .fm .fy2 ++ t24, dSep '-' .fm .fd .fy2 ++ t24]

/-- The first `some` of a list of attempts. -/
def firstSome : List (Option α) → Option α
  | [] => none
  | some x :: _ => some x
  | none :: rest => firstSome rest

/-- The whitespace normalization of `parse_datetime`: replace U+202F by
a space, strip, collapse whitespace runs. -/
def normalizeDT (s : List Char) : List Char :=
  collapseWS (pyStrip (s.map fun c => if c = Char.ofNat 0x202f then ' ' else c))

/-- `parse_datetime`: `None` for a falsy argument, otherwise normalize
whitespace and return the first format that matches; `none` also models
the `ValueError` raised when no format matches. -/
def parse_datetime (s : String) : Option DateTime :=
  if s.data.isEmpty then none
  else firstSome (formats.map fun fmt => strptime fmt (normalizeDT s.data))

/-- The index of the first format that `parse_datetime` would succeed
with, used to reason about which layout resolves an ambiguous string. -/
def firstFormatIndex (s : String) : Option Nat :=
  formats.findIdx? fun fmt => (strptime fmt (normalizeDT s.data)).isSome

/-!  `parse_whatsapp_chat` and the aggregation functions. -/

/-- One parsed message: the dictionary
`{"timestamp": ..., "user": ..., "message": ...}`. -/
structure Message where
  timestamp : DateTime
  user : String
  message : String
deriving DecidableEq, Repr

/-- Increment the counter of `k` in an insertion-ordered association
list, the model of `defaultdict(int)` updates `d[k] += 1`. -/
def bumpAssoc {κ : Type} [DecidableEq κ] (k : κ) : List (κ × Nat) → List (κ × Nat)
  | [] => [(k, 1)]
  | (k', v) :: rest => if k' = k then (k', v + 1) :: rest else (k', v) :: bumpAssoc k rest

/-- Add `n` to the counter of `k` (used for the per-user emoji count,
which the source bumps once per emoji character). -/
def addAssoc {κ : Type} [DecidableEq κ] (k : κ) (n : Nat) : List (κ × Nat) → List (κ × Nat)
  | [] => [(k, n)]
  | (k', v) :: rest => if k' = k then (k', v + n) :: rest else (k', v) :: addAssoc k n rest

/-- The number of characters of `msg` in the emoji table
(`emoji.EMOJI_DATA` is external, so membership is a parameter). -/
def countEmojis (isEmoji : Char → Bool) (msg : String) : Nat :=
  (msg.data.filter isEmoji).length

/-- The accumulators of the `parse_whatsapp_chat` loop. -/
structure ChatState where
  messages : List Message
  userMessageCount : List (String × Nat)
  timestamps : List DateTime
  users : List String
  emojiCount : List (String × Nat)
  linkCount : Nat
deriving DecidableEq, Repr

def initState : ChatState := ⟨[], [], [], [], [], 0⟩

/-- `time if time else "00:00"`: the captured time group, defaulting to
midnight when the group is absent (or falsy). -/
def defaultTime : Option String → String
  | none => "00:00"
  | some t => if t = "" then "00:00" else t

/-- The body of the `for line in lines` loop: strip the line, skip
system messages, match `chat_pattern`, default a missing time to
`00:00`, parse the timestamp (skipping the line when `parse_datetime`
raises), and extend every accumulator.  The Python `set` of users is
modelled as an insertion-ordered duplicate-free list. -/
def processLine (isEmoji : Char → Bool) (st : ChatState) (rawLine : String) : ChatState :=
  let line := stripStr rawLine
  if is_system_message line then st
  else
    match chatMatch line.data with
    | none => st
    | some g =>
      if g.date = "" then st
      else
        match parse_datetime (g.date ++ " " ++ defaultTime g.time) with
        | none => st
        | some ts =>
          { messages := st.messages ++ [⟨ts, g.user, g.message⟩]
            userMessageCount := bumpAssoc g.user st.userMessageCount
            timestamps := st.timestamps ++ [ts]
            users := if g.user ∈ st.users then st.users else st.users ++ [g.user]
            emojiCount :=
              (let n := countEmojis isEmoji g.message
               if n = 0 then st.emojiCount else addAssoc g.user n st.emojiCount)
            linkCount := st.linkCount +
              (if hasSub "http".data g.message.data ∨ hasSub "www.".data g.message.data
               then 1 else 0) }

/-- The whole loop of `parse_whatsapp_chat` over the file's lines. -/
def parseLines (isEmoji : Char → Bool) (lines : List String) : ChatState :=
  lines.foldl (processLine isEmoji) initState

/-- Lexicographic strict order on timestamps, matching comparison of
Python `datetime` values (seconds and finer are all zero here). -/
def dtLt (a b : DateTime) : Bool :=
  a.year < b.year ∨ (a.year = b.year ∧
    (a.month < b.month ∨ (a.month = b.month ∧
      (a.day < b.day ∨ (a.day = b.day ∧
        (a.hour < b.hour ∨ (a.hour = b.hour ∧ a.minute < b.minute)))))))

/-- `min(timestamps)`: the first minimal element. -/
def dtListMin : List DateTime → Option DateTime
  | [] => none
  | t :: ts => some (ts.foldl (fun a b => if dtLt b a then b else a) t)

/-- `max(timestamps)`: the first maximal element. -/
def dtListMax : List DateTime → Option DateTime
  | [] => none
  | t :: ts => some (ts.foldl (fun a b => if dtLt a b then b else a) t)

/-- The error raised when no message survives parsing. -/
inductive ChatError where
  | noValidMessages
deriving DecidableEq, Repr

/-- The dictionary returned by `parse_whatsapp_chat`. -/
structure ChatData where
  messages : List Message
  userMessageCount : List (String × Nat)
  users : List String
  timestamps : List DateTime
  chatStart : Option DateTime
  chatEnd : Option DateTime
  emojiCount : List (String × Nat)
  linkCount : Nat
deriving DecidableEq, Repr

/-- `parse_whatsapp_chat` given the file's lines: run the loop, raise
`NoValidMessages` when no message was extracted, otherwise return the
result dictionary. -/
def parse_whatsapp_chat (isEmoji : Char → Bool) (lines : List String) :
    Except ChatError ChatData :=
  let st := parseLines isEmoji lines
  if st.messages = [] then .error .noValidMessages
  else .ok
    { messages := st.messages
      userMessageCount := st.userMessageCount
      users := st.users
      timestamps := st.timestamps
      chatStart := dtListMin st.timestamps
      chatEnd := dtListMax st.timestamps
      emojiCount := st.emojiCount
      linkCount := st.linkCount }

/-- Days before January 1 of year `y` since the epoch of day numbering,
as in Python's `date.toordinal`. -/
def daysBeforeYear (y : Nat) : Nat :=
  365 * (y - 1) + (y - 1) / 4 - (y - 1) / 100 + (y - 1) / 400

/-- Days of year `y` before month `m` (1–12). -/
def daysBeforeMonth (y m : Nat) : Nat :=
  (List.range (m - 1)).foldl (fun acc i => acc + daysInMonth y (i + 1)) 0

/-- The day number of a timestamp's date. -/
def toDayNumber (dt : DateTime) : Nat :=
  daysBeforeYear dt.year + daysBeforeMonth dt.year dt.month + (dt.day - 1)

/-- Seconds from the day-numbering epoch: `datetime` subtraction
followed by `total_seconds()` equals the difference of this value. -/
def toSeconds (dt : DateTime) : Int :=
  (toDayNumber dt : Int) * 86400 + dt.hour * 3600 + dt.minute * 60

/-- `np.mean` of a list of rationals, with the empty case left to the
callers (they all guard it). -/
def listMean (l : List ℚ) : ℚ := l.sum / l.length

/-- `daily_chat_frequency`: per-calendar-date message counts, in first
occurrence order (a `defaultdict(int)` keyed by `ts.date()`). -/
def daily_chat_frequency (timestamps : List DateTime) : List ((Nat × Nat × Nat) × Nat) :=
  timestamps.foldl (fun acc ts => bumpAssoc (ts.year, ts.month, ts.day) acc) []

/-- `average_messages_per_day`: mean of the daily counts, zero on an
empty frequency table. -/
def average_messages_per_day (dailyFreq : List ((Nat × Nat × Nat) × Nat)) : ℚ :=
  if dailyFreq = [] then 0
  else listMean (dailyFreq.map fun kv => (kv.2 : ℚ))

/-- The loop of `response_time_analysis`: collect
`(timestamp - prev_time).total_seconds() / 60` for every message with a
predecessor. -/
def collectDeltas : Option DateTime → List Message → List ℚ
  | _, [] => []
  | none, msg :: rest => collectDeltas (some msg.timestamp) rest
  | some prev, msg :: rest =>
    ((toSeconds msg.timestamp - toSeconds prev : Int) : ℚ) / 60 ::
      collectDeltas (some msg.timestamp) rest

/-- `response_time_analysis`: the mean of the collected per-gap values
(minutes), zero when there is no gap. -/
def response_time_analysis (messages : List Message) : ℚ :=
  let deltas := collectDeltas none messages
  if deltas = [] then 0 else listMean deltas

/-- The five sentiment buckets. -/
inductive Sentiment where
  | tooNegative | negative | neutral | positive | veryPositive
deriving DecidableEq, Repr

/-- The `if/elif` classification chain of `sentiment_analysis`.  The
TextBlob polarity is a numeric score compared against fixed constants,
modelled over `ℚ`. -/
def classifySentiment (p : ℚ) : Sentiment :=
  if p ≤ -0.6 then .tooNegative
  else if p ≤ -0.2 then .negative
  else if p ≤ 0.2 then .neutral
  else if p ≤ 0.6 then .positive
  else .veryPositive

/-- The `sentiment_counts` dictionary. -/
structure SentimentCounts where
  tooNegative : Nat
  negative : Nat
  neutral : Nat
  positive : Nat
  veryPositive : Nat
deriving DecidableEq, Repr

def bumpSentiment (c : SentimentCounts) : Sentiment → SentimentCounts
  | .tooNegative => { c with tooNegative := c.tooNegative + 1 }
  | .negative => { c with negative := c.negative + 1 }
  | .neutral => { c with neutral := c.neutral + 1 }
  | .positive => { c with positive := c.positive + 1 }
  | .veryPositive => { c with veryPositive := c.veryPositive + 1 }

/-- The classification loop of `sentiment_analysis`, starting from the
all-zero dictionary; `polarity` stands for the external
`TextBlob(...).sentiment.polarity` scorer. -/
def sentimentCounts (polarity : String → ℚ) (messages : List Message) : SentimentCounts :=
  messages.foldl (fun c m => bumpSentiment c (classifySentiment (polarity m.message)))
    ⟨0, 0, 0, 0, 0⟩

/-- The per-bucket percentages. -/
structure SentimentPercents where
  tooNegative : ℚ
  negative : ℚ
  neutral : ℚ
  positive : ℚ
  veryPositive : ℚ
deriving DecidableEq, Repr

/-- The result dictionary of `sentiment_analysis`. -/
structure SentimentResult where
  averagePolarity : ℚ
  distribution : SentimentCounts
  percentages : SentimentPercents
deriving DecidableEq, Repr

/-- `sentiment_analysis`: polarity list, bucket counts, average polarity
and percentage per bucket (zeros when there is no message). -/
def sentiment_analysis (polarity : String → ℚ) (messages : List Message) :
    SentimentResult :=
  let polarities := messages.map fun m => polarity m.message
  let counts := sentimentCounts polarity messages
  let total : Nat := messages.length
  if total = 0 then
    { averagePolarity := 0, distribution := counts
      percentages := ⟨0, 0, 0, 0, 0⟩ }
  else
    { averagePolarity := listMean polarities
      distribution := counts
      percentages :=
        ⟨(counts.tooNegative : ℚ) / total * 100, (counts.negative : ℚ) / total * 100,
         (counts.neutral : ℚ) / total * 100, (counts.positive : ℚ) / total * 100,
         (counts.veryPositive : ℚ) / total * 100⟩ }

/-- The summary statistics derived from a parse result by
`display_chat_summary`'s aggregation calls. -/
structure Summary where
  dailyFrequency : List ((Nat × Nat × Nat) × Nat)
  avgMessagesPerDay : ℚ
  averageResponse : ℚ
  sentiment : SentimentResult
  userMessageCount : List (String × Nat)
deriving DecidableEq, Repr

/-- One aggregation pass over a parse result: every accumulator
(`daily_freq`, the response-time list, the sentiment counters) is
created afresh inside the called functions, so the pass reads only its
arguments. -/
def aggregate (polarity : String → ℚ) (d : ChatData) : Summary :=
  let freq := daily_chat_frequency d.timestamps
  { dailyFrequency := freq
    avgMessagesPerDay := average_messages_per_day freq
    averageResponse := response_time_analysis d.messages
    sentiment := sentiment_analysis polarity d.messages
    userMessageCount := d.userMessageCount }

/-- Two consecutive aggregation passes over the same parse result. -/
def aggregateTwice (polarity : String → ℚ) (d : ChatData) : Summary × Summary :=
  (aggregate polarity d, aggregate polarity d)

/-!  Helper lemmas about the parsing loop. -/

lemma processLine_system (isEmoji : Char → Bool) (st : ChatState) (l : String)
    (h : is_system_message (stripStr l) = true) :
    processLine isEmoji st l = st := by
  simp [processLine, h]

lemma processLine_unmatched (isEmoji : Char → Bool) (st : ChatState) (l : String)
    (h : is_system_message (stripStr l) = false)
    (hm : chatMatch (stripStr l).data = none) :
    processLine isEmoji st l = st := by
  simp [processLine, h, hm]

lemma processLine_badtime (isEmoji : Char → Bool) (st : ChatState) (l : String)
    (g : ChatGroups)
    (h : is_system_message (stripStr l) = false)
    (hm : chatMatch (stripStr l).data = some g)
    (hp : parse_datetime (g.date ++ " " ++ defaultTime g.time) = none) :
    processLine isEmoji st l = st := by
  by_cases hd : g.date = "" <;> simp [processLine, h, hm, hd, hp]

lemma processLine_success (isEmoji : Char → Bool) (st : ChatState) (l : String)
    (g : ChatGroups) (ts : DateTime)
    (h : is_system_message (stripStr l) = false)
    (hm : chatMatch (stripStr l).data = some g)
    (hd : g.date ≠ "")
    (hp : parse_datetime (g.date ++ " " ++ defaultTime g.time) = some ts) :
    processLine isEmoji st l =
      { messages := st.messages ++ [⟨ts, g.user, g.message⟩]
        userMessageCount := bumpAssoc g.user st.userMessageCount
        timestamps := st.timestamps ++ [ts]
        users := if g.user ∈ st.users then st.users else st.users ++ [g.user]
        emojiCount :=
          (let n := countEmojis isEmoji g.message
           if n = 0 then st.emojiCount else addAssoc g.user n st.emojiCount)
        linkCount := st.linkCount +
          (if hasSub "http".data g.message.data ∨ hasSub "www.".data g.message.data
           then 1 else 0) } := by
  simp [processLine, h, hm, hd, hp]

/-- Every loop step either leaves the state unchanged or appends one
record built from a successful header match and timestamp parse,
extending each accumulator accordingly. -/
lemma processLine_cases (isEmoji : Char → Bool) (st : ChatState) (l : String) :
    processLine isEmoji st l = st ∨
    ∃ g ts, chatMatch (stripStr l).data = some g ∧
      parse_datetime (g.date ++ " " ++ defaultTime g.time) = some ts ∧
      processLine isEmoji st l =
        { messages := st.messages ++ [⟨ts, g.user, g.message⟩]
          userMessageCount := bumpAssoc g.user st.userMessageCount
          timestamps := st.timestamps ++ [ts]
          users := if g.user ∈ st.users then st.users else st.users ++ [g.user]
          emojiCount :=
            (let n := countEmojis isEmoji g.message
             if n = 0 then st.emojiCount else addAssoc g.user n st.emojiCount)
          linkCount := st.linkCount +
            (if hasSub "http".data g.message.data ∨ hasSub "www.".data g.message.data
             then 1 else 0) } := by
  by_cases h : is_system_message (stripStr l) = true
  · exact Or.inl (processLine_system isEmoji st l h)
  · rw [Bool.not_eq_true] at h
    cases hm : chatMatch (stripStr l).data with
    | none => exact Or.inl (processLine_unmatched isEmoji st l h hm)
    | some g =>
      by_cases hd : g.date = ""
      · exact Or.inl (by simp [processLine, h, hm, hd])
      · cases hp : parse_datetime (g.date ++ " " ++ defaultTime g.time) with
        | none => exact Or.inl (processLine_badtime isEmoji st l g h hm hp)
        | some ts =>
          exact Or.inr ⟨g, ts, rfl, hp, processLine_success isEmoji st l g ts h hm hd hp⟩

/-- A fold over lines all of which are system messages changes nothing. -/
lemma foldl_allSystem (isEmoji : Char → Bool) (st : ChatState) (lines : List String)
    (h : ∀ l ∈ lines, is_system_message (stripStr l) = true) :
    lines.foldl (processLine isEmoji) st = st := by
  induction lines generalizing st with
  | nil => rfl
  | cons l rest ih =>
    rw [List.foldl_cons, processLine_system isEmoji st l (h l (List.mem_cons_self l rest))]
    exact ih st fun x hx => h x (List.mem_cons_of_mem l hx)

/-- Does the recorded message body pass the link test of the loop,
`"http" in message or "www." in message`? -/
def linkPred (m : Message) : Bool :=
  hasSub "http".data m.message.data || hasSub "www.".data m.message.data

lemma linkCount_fold (isEmoji : Char → Bool) (lines : List String) :
    ∀ st : ChatState, st.linkCount = st.messages.countP linkPred →
      (lines.foldl (processLine isEmoji) st).linkCount =
        ((lines.foldl (processLine isEmoji) st).messages).countP linkPred := by
  induction lines with
  | nil => intro st h; exact h
  | cons l rest ih =>
    intro st h
    rw [List.foldl_cons]
    rcases processLine_cases isEmoji st l with hc | ⟨g, ts, _, _, hc⟩
    · rw [hc]; exact ih st h
    · rw [hc]
      refine ih _ ?_
      simp only [List.countP_append, List.countP_cons, List.countP_nil]
      have : (if hasSub "http".data g.message.data ∨ hasSub "www.".data g.message.data
          then 1 else 0) = (if linkPred ⟨ts, g.user, g.message⟩ then 1 else 0) := by
        cases h1 : hasSub "http".data g.message.data <;>
          cases h2 : hasSub "www.".data g.message.data <;>
            simp [linkPred, h1, h2]
      simp only [h, this]
      cases linkPred (⟨ts, g.user, g.message⟩ : Message) <;> simp

/-- The total of the five sentiment bucket counters. -/
def countsTotal (c : SentimentCounts) : Nat :=
  c.tooNegative + c.negative + c.neutral + c.positive + c.veryPositive

lemma countsTotal_bump (c : SentimentCounts) (s : Sentiment) :
    countsTotal (bumpSentiment c s) = countsTotal c + 1 := by
  cases s <;> simp [bumpSentiment, countsTotal] <;> omega

lemma countsTotal_fold (polarity : String → ℚ) (msgs : List Message) :
    ∀ c : SentimentCounts,
      countsTotal (msgs.foldl
        (fun c m => bumpSentiment c (classifySentiment (polarity m.message))) c) =
      countsTotal c + msgs.length := by
  induction msgs with
  | nil => intro c; simp
  | cons m rest ih =>
    intro c
    rw [List.foldl_cons, ih, countsTotal_bump, List.length_cons]
    omega

/-!  The claims. -/

/-- C2: when zero message records survive parsing — in particular for a
non-empty all-system-notification input and for the empty input — the
parser signals `NoValidMessages` instead of returning an empty result. -/
theorem claim2_no_valid_messages (isEmoji : Char → Bool) (lines : List String) :
    ((parseLines isEmoji lines).messages = [] →
      parse_whatsapp_chat isEmoji lines = .error .noValidMessages) ∧
    ((∀ l ∈ lines, is_system_message (stripStr l) = true) →
      parse_whatsapp_chat isEmoji lines = .error .noValidMessages) ∧
    parse_whatsapp_chat isEmoji [] = .error .noValidMessages := by
  refine ⟨fun h => by simp [parse_whatsapp_chat, h], fun h => ?_, rfl⟩
  have he : parseLines isEmoji lines = initState :=
    foldl_allSystem isEmoji initState lines h
  simp [parse_whatsapp_chat, he, initState]

theorem claim2_no_valid_messages_witness :
    parse_whatsapp_chat (fun _ => false) ["Alice left the group", "Bob started a call"] =
      .error .noValidMessages :=
  (claim2_no_valid_messages (fun _ => false) _).2.1 (by decide)

/-- C4: the sentiment classification uses the inclusive upper thresholds
−0.6, −0.2, 0.2, 0.6 in an if/elif chain, so the five buckets partition
the polarity range; polarity −0.2 is Negative, 0.2 is Neutral, 0.61 is
Very Positive, and the five bucket counts sum to the number of
records. -/
theorem claim4_sentiment_thresholds :
    (∀ p : ℚ, p ≤ -0.6 → classifySentiment p = .tooNegative) ∧
    (∀ p : ℚ, -0.6 < p → p ≤ -0.2 → classifySentiment p = .negative) ∧
    (∀ p : ℚ, -0.2 < p → p ≤ 0.2 → classifySentiment p = .neutral) ∧
    (∀ p : ℚ, 0.2 < p → p ≤ 0.6 → classifySentiment p = .positive) ∧
    (∀ p : ℚ, 0.6 < p → classifySentiment p = .veryPositive) ∧
    classifySentiment (-0.2) = .negative ∧
    classifySentiment 0.2 = .neutral ∧
    classifySentiment 0.61 = .veryPositive ∧
    ∀ (polarity : String → ℚ) (msgs : List Message),
      countsTotal (sentimentCounts polarity msgs) = msgs.length := by
  refine ⟨?_, ?_, ?_, ?_, ?_, by norm_num [classifySentiment],
    by norm_num [classifySentiment], by norm_num [classifySentiment], ?_⟩
  · intro p h
    unfold classifySentiment
    split_ifs <;> first | rfl | (exfalso; linarith)
  · intro p h1 h2
    unfold classifySentiment
    split_ifs <;> first | rfl | (exfalso; linarith)
  · intro p h1 h2
    unfold classifySentiment
    split_ifs <;> first | rfl | (exfalso; linarith)
  · intro p h1 h2
    unfold classifySentiment
    split_ifs <;> first | rfl | (exfalso; linarith)
  · intro p h
    unfold classifySentiment
    split_ifs <;> first | rfl | (exfalso; linarith)
  · intro polarity msgs
    unfold sentimentCounts
    rw [countsTotal_fold]
    simp [countsTotal]

theorem claim4_sentiment_thresholds_witness :
    classifySentiment (-1) = .tooNegative ∧ classifySentiment (-0.5) = .negative ∧
    classifySentiment 0 = .neutral ∧ classifySentiment 0.5 = .positive ∧
    classifySentiment 1 = .veryPositive :=
  ⟨claim4_sentiment_thresholds.1 (-1) (by norm_num),
   claim4_sentiment_thresholds.2.1 (-0.5) (by norm_num) (by norm_num),
   claim4_sentiment_thresholds.2.2.1 0 (by norm_num) (by norm_num),
   claim4_sentiment_thresholds.2.2.2.1 0.5 (by norm_num) (by norm_num),
   claim4_sentiment_thresholds.2.2.2.2.1 1 (by norm_num)⟩

/-- C5 (amended): `link_count` equals the number of records whose body
contains the substring `"http"` anywhere, or the substring `"www."`
anywhere — not specifically an `http://`, `https://` or `www.` URL
token. -/
theorem claim5_link_count (isEmoji : Char → Bool) (lines : List String) :
    (parseLines isEmoji lines).linkCount =
      ((parseLines isEmoji lines).messages).countP linkPred :=
  linkCount_fold isEmoji lines initState rfl

theorem claim5_link_count_witness :
    (parseLines (fun _ => false) ["1/2/23, 9:00 AM - A: www.x.co", "1/2/23, 9:05 AM - B: hi"]).linkCount =
      ((parseLines (fun _ => false)
        ["1/2/23, 9:00 AM - A: www.x.co", "1/2/23, 9:05 AM - B: hi"]).messages).countP linkPred :=
  claim5_link_count (fun _ => false) ["1/2/23, 9:00 AM - A: www.x.co", "1/2/23, 9:05 AM - B: hi"]

/-- C5 counterexample: a record whose body contains `"http"` only as part
of the word `"httpfoo"` — no `http://`, `https://` or `www.` token — is
still counted, so `link_count` (1) differs from the claim's token count
(0) on this input. -/
theorem claim5_link_count_counterexample :
    (parseLines (fun _ => false) ["1/2/23, 9:00 AM - A: see httpfoo now"]).linkCount = 1 ∧
    ((parseLines (fun _ => false) ["1/2/23, 9:00 AM - A: see httpfoo now"]).messages).countP
      (fun m => hasSub "http://".data m.message.data ||
        hasSub "https://".data m.message.data || hasSub "www.".data m.message.data) = 0 ∧
    (parseLines (fun _ => false) ["1/2/23, 9:00 AM - A: see httpfoo now"]).linkCount ≠
      ((parseLines (fun _ => false) ["1/2/23, 9:00 AM - A: see httpfoo now"]).messages).countP
        (fun m => hasSub "http://".data m.message.data ||
          hasSub "https://".data m.message.data || hasSub "www.".data m.message.data) := by
  refine ⟨rfl, rfl, ?_⟩
  decide

/-- C9: aggregation is a pure function of the parse result — running it
twice yields equal summaries, and results depend only on the consumed
record sequence and accumulators, with no cross-call state. -/
theorem claim9_aggregation_deterministic (polarity : String → ℚ) (d : ChatData) :
    (aggregateTwice polarity d).1 = (aggregateTwice polarity d).2 ∧
    ∀ d' : ChatData, d.messages = d'.messages → d.timestamps = d'.timestamps →
      d.userMessageCount = d'.userMessageCount →
      aggregate polarity d = aggregate polarity d' := by
  refine ⟨rfl, fun d' h1 h2 h3 => ?_⟩
  unfold aggregate
  rw [h1, h2, h3]

theorem claim9_aggregation_deterministic_witness :
    (aggregateTwice (fun _ => 0)
        ⟨[⟨⟨2023, 2, 1, 9, 0⟩, "Bob", "hi"⟩], [("Bob", 1)], ["Bob"],
          [⟨2023, 2, 1, 9, 0⟩], some ⟨2023, 2, 1, 9, 0⟩, some ⟨2023, 2, 1, 9, 0⟩, [], 0⟩).1 =
      (aggregateTwice (fun _ => 0)
        ⟨[⟨⟨2023, 2, 1, 9, 0⟩, "Bob", "hi"⟩], [("Bob", 1)], ["Bob"],
          [⟨2023, 2, 1, 9, 0⟩], some ⟨2023, 2, 1, 9, 0⟩, some ⟨2023, 2, 1, 9, 0⟩, [], 0⟩).2 ∧
    aggregate (fun _ => 0)
        ⟨[⟨⟨2023, 2, 1, 9, 0⟩, "Bob", "hi"⟩], [("Bob", 1)], ["Bob"],
          [⟨2023, 2, 1, 9, 0⟩], some ⟨2023, 2, 1, 9, 0⟩, some ⟨2023, 2, 1, 9, 0⟩, [], 0⟩ =
      aggregate (fun _ => 0)
        ⟨[⟨⟨2023, 2, 1, 9, 0⟩, "Bob", "hi"⟩], [("Bob", 1)], ["Bob"],
          [⟨2023, 2, 1, 9, 0⟩], some ⟨2023, 2, 1, 9, 0⟩, some ⟨2023, 2, 1, 9, 0⟩, [], 0⟩ :=
  ⟨(claim9_aggregation_deterministic (fun _ => 0) _).1,
   (claim9_aggregation_deterministic (fun _ => 0) _).2 _ rfl rfl rfl⟩

/-- C10: a line on which `is_system_message` fires — a case-insensitive
substring test, checked before the header match — contributes no record
and changes no state, even when the line also matches the full header
structure; witnessed by a valid header whose body mentions "STARTED A
CALL". -/
theorem claim10_system_check_first (isEmoji : Char → Bool) (st : ChatState) (l : String)
    (rest : List String) (h : is_system_message (stripStr l) = true) :
    processLine isEmoji st l = st ∧
    (l :: rest).foldl (processLine isEmoji) st = rest.foldl (processLine isEmoji) st ∧
    (chatMatch (stripStr "03/04/25, 01:30 PM - Alice: we STARTED A CALL earlier").data).isSome
      = true ∧
    is_system_message (stripStr "03/04/25, 01:30 PM - Alice: we STARTED A CALL earlier")
      = true ∧
    parse_whatsapp_chat (fun _ => false)
      ["03/04/25, 01:30 PM - Alice: we STARTED A CALL earlier"] = .error .noValidMessages := by
  refine ⟨processLine_system isEmoji st l h, ?_, rfl, rfl, rfl⟩
  rw [List.foldl_cons, processLine_system isEmoji st l h]

theorem claim10_system_check_first_witness :
    processLine (fun _ => false) initState
        "03/04/25, 01:30 PM - Alice: we STARTED A CALL earlier" = initState :=
  (claim10_system_check_first (fun _ => false) initState
    "03/04/25, 01:30 PM - Alice: we STARTED A CALL earlier" [] (by decide)).1

/-- C1 (amended): a well-formed header line followed by two lines that
match no header structure yields exactly one record, but that record's
body is the header body alone — the loop has no continuation handling,
so non-matching lines are discarded rather than appended. -/
theorem claim1_continuation_lines_dropped (isEmoji : Char → Bool)
    (hdr c1 c2 : String) (g : ChatGroups) (ts : DateTime)
    (hs : is_system_message (stripStr hdr) = false)
    (hm : chatMatch (stripStr hdr).data = some g)
    (hd : g.date ≠ "")
    (hp : parse_datetime (g.date ++ " " ++ defaultTime g.time) = some ts)
    (h1s : is_system_message (stripStr c1) = false)
    (h1m : chatMatch (stripStr c1).data = none)
    (h2s : is_system_message (stripStr c2) = false)
    (h2m : chatMatch (stripStr c2).data = none) :
    (parseLines isEmoji [hdr, c1, c2]).messages = [⟨ts, g.user, g.message⟩] := by
  unfold parseLines
  rw [List.foldl_cons, processLine_success isEmoji initState hdr g ts hs hm hd hp,
    List.foldl_cons, processLine_unmatched isEmoji _ c1 h1s h1m,
    List.foldl_cons, processLine_unmatched isEmoji _ c2 h2s h2m, List.foldl_nil]
  simp [initState]

theorem claim1_continuation_lines_dropped_witness :
    (parseLines (fun _ => false)
        ["03/04/25, 01:30 PM - Alice: hello", "just a continuation", "another line"]).messages =
      [⟨⟨2025, 4, 3, 13, 30⟩, "Alice", "hello"⟩] :=
  claim1_continuation_lines_dropped (fun _ => false) _ _ _
    ⟨"03/04/25", some "01:30 PM", some " PM", "Alice", "hello"⟩ ⟨2025, 4, 3, 13, 30⟩
    (by decide) (by decide) (by decide) (by decide) (by decide) (by decide)
    (by decide) (by decide)

/-- C1 counterexample: on a header (body `"hello"`) followed by two
continuation lines, the unique record's body is `"hello"`, not the
newline-join of all three lines as the claim states. -/
theorem claim1_continuation_lines_dropped_counterexample :
    ((parseLines (fun _ => false)
        ["03/04/25, 01:30 PM - Alice: hello", "just a continuation", "another line"]).messages.map
      fun m => m.message) = ["hello"] ∧
    ((parseLines (fun _ => false)
        ["03/04/25, 01:30 PM - Alice: hello", "just a continuation", "another line"]).messages.map
      fun m => m.message) ≠ ["hello" ++ "\n" ++ "just a continuation" ++ "\n" ++ "another line"] := by
  refine ⟨rfl, ?_⟩
  decide

/-- Every record of a fold over lines comes either from the initial state
or from a line whose header matched and whose timestamp parsed. -/
lemma records_provenance_fold (isEmoji : Char → Bool) (lines : List String) :
    ∀ (st : ChatState) (r : Message), r ∈ (lines.foldl (processLine isEmoji) st).messages →
      r ∈ st.messages ∨ ∃ l ∈ lines, ∃ g, chatMatch (stripStr l).data = some g ∧
        parse_datetime (g.date ++ " " ++ defaultTime g.time) = some r.timestamp ∧
        r.user = g.user ∧ r.message = g.message := by
  induction lines with
  | nil => exact fun st r h => Or.inl h
  | cons l rest ih =>
    intro st r h
    rw [List.foldl_cons] at h
    rcases processLine_cases isEmoji st l with hc | ⟨g, ts, hm, hp, hc⟩
    · rw [hc] at h
      rcases ih st r h with h' | ⟨l', hl', hrest⟩
      · exact Or.inl h'
      · exact Or.inr ⟨l', List.mem_cons_of_mem l hl', hrest⟩
    · rw [hc] at h
      rcases ih _ r h with h' | ⟨l', hl', hrest⟩
      · rcases List.mem_append.mp h' with h'' | h''
        · exact Or.inl h''
        · have hr : r = ⟨ts, g.user, g.message⟩ := List.mem_singleton.mp h''
          subst hr
          exact Or.inr ⟨l, List.mem_cons_self l rest, g, hm, hp, rfl, rfl⟩
      · exact Or.inr ⟨l', List.mem_cons_of_mem l hl', hrest⟩

/-- C6 (amended): every record the parser constructs comes from a line
whose header matched, with a successfully-parsed timestamp (lines whose
timestamps fail to parse yield no record); the sender is the header's
captured text, which — contrary to the claim — may be empty. -/
theorem claim6_record_timestamps_parsed (isEmoji : Char → Bool) (lines : List String)
    (r : Message) (h : r ∈ (parseLines isEmoji lines).messages) :
    ∃ l ∈ lines, ∃ g, chatMatch (stripStr l).data = some g ∧
      parse_datetime (g.date ++ " " ++ defaultTime g.time) = some r.timestamp ∧
      r.user = g.user ∧ r.message = g.message := by
  rcases records_provenance_fold isEmoji lines initState r h with h' | h'
  · exact absurd h' (List.not_mem_nil r)
  · exact h'

theorem claim6_record_timestamps_parsed_witness :
    ∃ l ∈ ["1/2/23, 9:00 AM - Bob: hi"], ∃ g, chatMatch (stripStr l).data = some g ∧
      parse_datetime (g.date ++ " " ++ defaultTime g.time) =
        some (⟨⟨2023, 2, 1, 9, 0⟩, "Bob", "hi"⟩ : Message).timestamp ∧
      (⟨⟨2023, 2, 1, 9, 0⟩, "Bob", "hi"⟩ : Message).user = g.user ∧
      (⟨⟨2023, 2, 1, 9, 0⟩, "Bob", "hi"⟩ : Message).message = g.message :=
  claim6_record_timestamps_parsed (fun _ => false) ["1/2/23, 9:00 AM - Bob: hi"]
    ⟨⟨2023, 2, 1, 9, 0⟩, "Bob", "hi"⟩ (by decide)

/-- C6 counterexample: the header `"13/04/25, 01:30 PM - : hi"` matches
with an empty sender capture, and the parser constructs a record whose
sender is the empty string — refuting the non-empty-sender invariant. -/
theorem claim6_record_timestamps_parsed_counterexample :
    (parseLines (fun _ => false) ["13/04/25, 01:30 PM - : hi"]).messages =
      [⟨⟨2025, 4, 13, 13, 30⟩, "", "hi"⟩] ∧
    ¬ (∀ r ∈ (parseLines (fun _ => false) ["13/04/25, 01:30 PM - : hi"]).messages,
        r.user ≠ "") := by
  refine ⟨rfl, ?_⟩
  decide

/-- C8: a non-system line whose header matches but whose date-time token
matches no normalizer pattern is dropped by itself: the state is
unchanged, parsing continues over the surrounding lines, and the overall
result equals that of the input without the bad line (so no exception
escapes because of it). -/
theorem claim8_bad_timestamp_recovered (isEmoji : Char → Bool) (st : ChatState)
    (l : String) (g : ChatGroups)
    (h : is_system_message (stripStr l) = false)
    (hm : chatMatch (stripStr l).data = some g)
    (hp : parse_datetime (g.date ++ " " ++ defaultTime g.time) = none) :
    processLine isEmoji st l = st ∧
    (∀ pre post : List String,
      (pre ++ l :: post).foldl (processLine isEmoji) st =
        (pre ++ post).foldl (processLine isEmoji) st) ∧
    (∀ pre post : List String,
      parse_whatsapp_chat isEmoji (pre ++ l :: post) =
        parse_whatsapp_chat isEmoji (pre ++ post)) := by
  have hdrop : ∀ st' : ChatState, processLine isEmoji st' l = st' := fun st' =>
    processLine_badtime isEmoji st' l g h hm hp
  have hfold : ∀ (st' : ChatState) (pre post : List String),
      (pre ++ l :: post).foldl (processLine isEmoji) st' =
        (pre ++ post).foldl (processLine isEmoji) st' := by
    intro st' pre post
    rw [List.foldl_append, List.foldl_append, List.foldl_cons, hdrop]
  refine ⟨hdrop st, hfold st, fun pre post => ?_⟩
  unfold parse_whatsapp_chat parseLines
  rw [hfold initState pre post]

theorem claim8_bad_timestamp_recovered_witness :
    parse_whatsapp_chat (fun _ => false)
        ["31/31/25, 01:30 PM - Bob: hey", "1/2/23, 9:00 AM - Bob: ok"] =
      parse_whatsapp_chat (fun _ => false) ["1/2/23, 9:00 AM - Bob: ok"] :=
  (claim8_bad_timestamp_recovered (fun _ => false) initState
    "31/31/25, 01:30 PM - Bob: hey"
    ⟨"31/31/25", some "01:30 PM", some " PM", "Bob", "hey"⟩
    (by decide) (by decide) (by decide)).2.2 [] ["1/2/23, 9:00 AM - Bob: ok"]

/-- The successive time gaps of a transcript in transcript order, in the
units of `response_time_analysis` (seconds divided by 60). -/
def transcriptGaps (msgs : List Message) : List ℚ :=
  List.zipWith (fun a b => ((toSeconds b - toSeconds a : Int) : ℚ) / 60)
    (msgs.map fun m => m.timestamp) ((msgs.map fun m => m.timestamp).tail)

lemma collectDeltas_some (msgs : List Message) : ∀ t : DateTime,
    collectDeltas (some t) msgs =
      List.zipWith (fun a b => ((toSeconds b - toSeconds a : Int) : ℚ) / 60)
        (t :: msgs.map fun m => m.timestamp) (msgs.map fun m => m.timestamp) := by
  induction msgs with
  | nil => intro t; rfl
  | cons m rest ih =>
    intro t
    simp only [collectDeltas, List.map_cons, List.zipWith_cons_cons, ih]

lemma collectDeltas_none_eq (msgs : List Message) :
    collectDeltas none msgs = transcriptGaps msgs := by
  cases msgs with
  | nil => rfl
  | cons m rest =>
    show collectDeltas (some m.timestamp) rest = _
    rw [collectDeltas_some]
    simp [transcriptGaps]

/-- The mean, in seconds, of the successive-message time deltas in
transcript order, zero when fewer than two records exist.  Modelled from
the spec: this is what the spec's `average_response_seconds` field
describes, stated here for comparison with `response_time_analysis`. -/
def specAverageResponseSeconds (msgs : List Message) : ℚ :=
  let gaps := List.zipWith (fun a b => ((toSeconds b - toSeconds a : Int) : ℚ))
    (msgs.map fun m => m.timestamp) ((msgs.map fun m => m.timestamp).tail)
  if gaps = [] then 0 else listMean gaps

/-- C3 (amended): `response_time_analysis` returns the arithmetic mean of
the successive time deltas in transcript order divided by 60 — minutes,
not seconds — and zero when fewer than two records exist; for records at
minute offsets 0, 5, 15 it returns 7.5, not 450. -/
theorem claim3_response_time_in_minutes :
    (∀ msgs : List Message, msgs.length < 2 → response_time_analysis msgs = 0) ∧
    (∀ msgs : List Message, collectDeltas none msgs = transcriptGaps msgs) ∧
    (∀ msgs : List Message, 2 ≤ msgs.length →
      response_time_analysis msgs = (transcriptGaps msgs).sum / ((msgs.length : ℚ) - 1)) ∧
    response_time_analysis
      [⟨⟨2023, 1, 2, 9, 0⟩, "A", "a"⟩, ⟨⟨2023, 1, 2, 9, 5⟩, "B", "b"⟩,
       ⟨⟨2023, 1, 2, 9, 15⟩, "A", "c"⟩] = 15 / 2 := by
  have hlen : ∀ msgs : List Message,
      (transcriptGaps msgs).length = msgs.length - 1 := by
    intro msgs
    simp [transcriptGaps]
  refine ⟨?_, collectDeltas_none_eq, ?_,
    by norm_num [response_time_analysis, collectDeltas, listMean, toSeconds, toDayNumber,
      daysBeforeYear, daysBeforeMonth, daysInMonth, isLeap] <;> decide⟩
  · intro msgs h
    match msgs with
    | [] => rfl
    | [m] => rfl
    | a :: b :: rest =>
      simp only [List.length_cons] at h
      omega
  · intro msgs h
    have hne : transcriptGaps msgs ≠ [] := by
      have : 0 < (transcriptGaps msgs).length := by rw [hlen]; omega
      exact List.ne_nil_of_length_pos this
    simp only [response_time_analysis, collectDeltas_none_eq, if_neg hne, listMean]
    rw [hlen]
    congr 1
    have h1 : 1 ≤ msgs.length := by omega
    push_cast [Nat.cast_sub h1]
    ring

theorem claim3_response_time_in_minutes_witness :
    response_time_analysis
      [⟨⟨2023, 1, 2, 9, 0⟩, "A", "a"⟩, ⟨⟨2023, 1, 2, 9, 5⟩, "B", "b"⟩,
       ⟨⟨2023, 1, 2, 9, 15⟩, "A", "c"⟩] =
      (transcriptGaps
        [⟨⟨2023, 1, 2, 9, 0⟩, "A", "a"⟩, ⟨⟨2023, 1, 2, 9, 5⟩, "B", "b"⟩,
         ⟨⟨2023, 1, 2, 9, 15⟩, "A", "c"⟩]).sum /
      ((([⟨⟨2023, 1, 2, 9, 0⟩, "A", "a"⟩, ⟨⟨2023, 1, 2, 9, 5⟩, "B", "b"⟩,
         ⟨⟨2023, 1, 2, 9, 15⟩, "A", "c"⟩] : List Message).length : ℚ) - 1) :=
  claim3_response_time_in_minutes.2.2.1
    [⟨⟨2023, 1, 2, 9, 0⟩, "A", "a"⟩, ⟨⟨2023, 1, 2, 9, 5⟩, "B", "b"⟩,
     ⟨⟨2023, 1, 2, 9, 15⟩, "A", "c"⟩] (by decide)

/-- C3 counterexample: on records at minute offsets 0, 5, 15 the code's
value is 7.5 (minutes) while the claim's mean-of-seconds is 450, so the
two differ. -/
theorem claim3_response_time_in_minutes_counterexample :
    response_time_analysis
      [⟨⟨2023, 1, 2, 9, 0⟩, "A", "a"⟩, ⟨⟨2023, 1, 2, 9, 5⟩, "B", "b"⟩,
       ⟨⟨2023, 1, 2, 9, 15⟩, "A", "c"⟩] = 15 / 2 ∧
    specAverageResponseSeconds
      [⟨⟨2023, 1, 2, 9, 0⟩, "A", "a"⟩, ⟨⟨2023, 1, 2, 9, 5⟩, "B", "b"⟩,
       ⟨⟨2023, 1, 2, 9, 15⟩, "A", "c"⟩] = 450 ∧
    response_time_analysis
      [⟨⟨2023, 1, 2, 9, 0⟩, "A", "a"⟩, ⟨⟨2023, 1, 2, 9, 5⟩, "B", "b"⟩,
       ⟨⟨2023, 1, 2, 9, 15⟩, "A", "c"⟩] ≠
    specAverageResponseSeconds
      [⟨⟨2023, 1, 2, 9, 0⟩, "A", "a"⟩, ⟨⟨2023, 1, 2, 9, 5⟩, "B", "b"⟩,
       ⟨⟨2023, 1, 2, 9, 15⟩, "A", "c"⟩] := by
  have h1 : response_time_analysis
      [⟨⟨2023, 1, 2, 9, 0⟩, "A", "a"⟩, ⟨⟨2023, 1, 2, 9, 5⟩, "B", "b"⟩,
       ⟨⟨2023, 1, 2, 9, 15⟩, "A", "c"⟩] = 15 / 2 := by
    norm_num [response_time_analysis, collectDeltas, listMean, toSeconds, toDayNumber,
      daysBeforeYear, daysBeforeMonth, daysInMonth, isLeap] <;> decide
  have h2 : specAverageResponseSeconds
      [⟨⟨2023, 1, 2, 9, 0⟩, "A", "a"⟩, ⟨⟨2023, 1, 2, 9, 5⟩, "B", "b"⟩,
       ⟨⟨2023, 1, 2, 9, 15⟩, "A", "c"⟩] = 450 := by
    norm_num [specAverageResponseSeconds, listMean, toSeconds, toDayNumber,
      daysBeforeYear, daysBeforeMonth, daysInMonth, isLeap] <;> decide
  refine ⟨h1, h2, ?_⟩
  rw [h1, h2]
  norm_num

/-- The positions in `formats` whose leading directive is `%d`. -/
def dayFirstIndices : List Nat := [0, 2, 6, 8, 12, 14, 16, 18]

/-- The positions in `formats` whose leading directive is `%m`. -/
def monthFirstIndices : List Nat := [1, 3, 7, 9, 13, 15, 17, 19]

lemma firstSome_eq_of_first_success {α : Type} :
    ∀ (l : List (Option α)) (i : Nat) (x : α),
      l[i]? = some (some x) → (∀ j, j < i → l[j]? = some none) →
      firstSome l = some x := by
  intro l
  induction l with
  | nil => intro i x h _; simp at h
  | cons o rest ih =>
    intro i x h hj
    cases i with
    | zero =>
      simp only [List.getElem?_cons_zero, Option.some_inj] at h
      rw [h]
      rfl
    | succ n =>
      have h0 : o = none := by
        have := hj 0 (Nat.succ_pos n)
        simpa using this
      subst h0
      exact ih n x (by simpa using h)
        (fun j hjn => by simpa using hj (j + 1) (Nat.succ_lt_succ hjn))

/-- C7 (amended): `parse_datetime` normalizes non-breaking and repeated
whitespace, then tries the fixed format list in order and returns the
first full match; day-first layouts precede month-first layouts, so the
ambiguous `03/04/25` (12-hour clock) resolves day-first (day 3, month 4)
even though a month-first layout also matches; a leading field of 13 or
more (such as `13/04/25`) resolves only under a day-first pattern —
every month-first pattern fails on it. -/
theorem claim7_format_order_policy :
    (∀ (s : String) (i : Nat) (fmt : List FmtTok) (r : DateTime),
      s.data ≠ [] → formats[i]? = some fmt →
      strptime fmt (normalizeDT s.data) = some r →
      (∀ j, j < i →
        ((formats[j]?).bind fun fmt' => strptime fmt' (normalizeDT s.data)) = none) →
      parse_datetime s = some r) ∧
    (dayFirstIndices.all fun i =>
      ((formats[i]?).map fun f => f.head? == some FmtTok.fd).getD false) = true ∧
    (monthFirstIndices.all fun i =>
      ((formats[i]?).map fun f => f.head? == some FmtTok.fm).getD false) = true ∧
    parse_datetime "03/04/25 01:30 PM" = some ⟨2025, 4, 3, 13, 30⟩ ∧
    firstFormatIndex "03/04/25 01:30 PM" = some 2 ∧ 2 ∈ dayFirstIndices ∧
    strptime (dSep '/' FmtTok.fm FmtTok.fd FmtTok.fy2 ++ t12)
      (normalizeDT "03/04/25 01:30 PM".data) = some ⟨2025, 3, 4, 13, 30⟩ ∧
    parse_datetime ("03/04/25" ++ String.mk [Char.ofNat 0x202f] ++ "01:30 PM") =
      some ⟨2025, 4, 3, 13, 30⟩ ∧
    parse_datetime "03/04/25  01:30   PM" = some ⟨2025, 4, 3, 13, 30⟩ ∧
    firstFormatIndex "13/04/25 01:30 PM" = some 2 := by
  refine ⟨?_, rfl, rfl, rfl, rfl, by decide, rfl, rfl, rfl, rfl⟩
  intro s i fmt r hs hi hstr hj
  unfold parse_datetime
  rw [if_neg (fun hh => hs (List.isEmpty_iff.mp hh))]
  apply firstSome_eq_of_first_success _ i r
  · rw [List.getElem?_map, hi]
    simp [hstr]
  · intro j hjlt
    rw [List.getElem?_map]
    have hilen : i < formats.length := by
      rcases List.getElem?_eq_some_iff.mp hi with ⟨hlt, _⟩
      exact hlt
    cases hfj : formats[j]? with
    | none =>
      exact absurd hfj (by simp [List.getElem?_eq_none_iff]; omega)
    | some fmt' =>
      have := hj j hjlt
      rw [hfj] at this
      simpa using this

theorem claim7_format_order_policy_witness :
    parse_datetime "03/04/25 01:30 PM" = some ⟨2025, 4, 3, 13, 30⟩ :=
  claim7_format_order_policy.1 "03/04/25 01:30 PM" 2
    (dSep '/' FmtTok.fd FmtTok.fm FmtTok.fy2 ++ t12) ⟨2025, 4, 3, 13, 30⟩
    (by decide) (by decide) (by decide) (by decide)

/-- C7 counterexample: `13/04/25 01:30 PM` is resolved by the day-first
format at index 2 — every month-first format fails on it — refuting the
claim that a leading field of 13 or more resolves only under a
month-first pattern. -/
theorem claim7_format_order_policy_counterexample :
    parse_datetime "13/04/25 01:30 PM" = some ⟨2025, 4, 13, 13, 30⟩ ∧
    firstFormatIndex "13/04/25 01:30 PM" = some 2 ∧
    2 ∈ dayFirstIndices ∧ 2 ∉ monthFirstIndices ∧
    (monthFirstIndices.all fun i =>
      ((formats[i]?).bind fun fmt =>
        strptime fmt (normalizeDT "13/04/25 01:30 PM".data)).isNone) = true := by
  exact ⟨rfl, rfl, by decide, by decide, rfl⟩

end WaChat
